import Mathlib

/-!
Verification of the browser-driven conversation controller of the `oracle`
repository.

The development shallowly embeds the run orchestrator `runBrowserMode`
(src/browser/index.ts) and the page-side picker injection
(scripts/browser-tools.ts).  Fallible collaborator calls (launch, connect,
navigation, the page-state driver steps) are modelled by an environment
record holding each call's outcome; the orchestrator's observable effects
(log lines to the caller-supplied sink, resource events, resource counters)
are threaded through an explicit `RunState`.

The modules `pageActions.ts`, `chromeLifecycle.ts`, `cookies.ts`,
`config.ts` and `utils.ts` are not part of the provided sources (only their
caller `index.ts` is); where a claim depends on their behaviour they are
modelled from the specification, and each such definition carries a
`Modelled from the spec:` doc comment.
-/

namespace Oracle

/-- Error taxonomy of the core (spec section 7); `responseTimeout` carries the
partially accumulated answer text, see `awaitStableResponse`. -/
inductive BrowserError where
  | launchTimeout
  | noActiveTab
  | navigationFailed
  | blockedHeadless
  | inputNotReady
  | responseTimeout (lastSeen : String)
  | pageScriptError (msg : String)
  | attachmentFailed
deriving DecidableEq, Repr

/-- Human-readable rendering of a driver error, used by the orchestrator's
catch-block log line (`index.ts` line 109-110). -/
def BrowserError.message : BrowserError → String
  | .launchTimeout => "Timed out waiting for the Chrome debugging endpoint"
  | .noActiveTab => "Chrome exposed no debuggable page"
  | .navigationFailed => "Navigation failed"
  | .blockedHeadless => "Blocked by an interactive challenge in headless mode"
  | .inputNotReady => "Prompt input control never became ready"
  | .responseTimeout _ => "Timed out waiting for the assistant response"
  | .pageScriptError m => m
  | .attachmentFailed => "Failed to attach a file"

/-- Top-level failure of `runBrowserMode`: the prompt guard
(`index.ts` line 25-27) or a propagated driver error. -/
inductive RunError where
  | promptRequired
  | driver (e : BrowserError)
deriving DecidableEq, Repr

/-- Resolved browser configuration (the fields of `BrowserAutomationConfig`
read by `runBrowserMode`). -/
structure BrowserConfig where
  url : String
  desiredModel : Option String
  chromeProfile : Option String
  inputTimeoutMs : Nat
  timeoutMs : Nat
  headless : Bool
  hideWindow : Bool
  keepBrowser : Bool
  cookieSync : Bool
  debug : Bool
deriving DecidableEq, Repr

/-- Call input of `runBrowserMode` (`BrowserRunOptions`): the prompt is
optional at the type level and validated at run time. -/
structure BrowserRunOptions where
  prompt : Option String
  config : BrowserConfig
deriving DecidableEq, Repr

/-- Handle on the launched Chrome process (pid and debugging port). -/
structure Chrome where
  pid : Nat
  port : Nat
deriving DecidableEq, Repr

/-- One poll of the response container during the response-awaiting state:
its text content, its HTML, opaque page metadata, and whether the
"generation complete" UI affordance was observed. -/
structure Snapshot where
  text : String
  html : String
  meta : Option String
  doneAffordance : Bool
deriving DecidableEq, Repr

/-- Value produced by the response-awaiting state on success
(the `answer` of `index.ts` line 88-91). -/
structure Answer where
  text : String
  html : Option String
  meta : Option String
deriving DecidableEq, Repr

/-- Call output of `runBrowserMode` (`BrowserRunResult`). -/
structure BrowserRunResult where
  answerText : String
  answerMarkdown : String
  answerHtml : Option String
  tookMs : Int
  answerTokens : Nat
  answerChars : Nat
  chromePid : Nat
  chromePort : Nat
  userDataDir : String
deriving DecidableEq, Repr

/-- Outcomes of the page-state-driver steps issued between navigation and
extraction, plus the poll stream and the wall clock consumed by the run.
`Date.now()` is modelled as successive readings of a forward-moving clock:
the run's n-th reading is `startTime` plus the cumulative non-negative
durations `stepMs 0, …, stepMs (n-1)` elapsed between readings (see
`clockAt`). -/
structure DriveEnv where
  navigate : Except BrowserError Unit
  notBlocked : Except BrowserError Unit
  promptReady1 : Except BrowserError Unit
  modelSelection : Except BrowserError Unit
  promptReady2 : Except BrowserError Unit
  submit : Except BrowserError Unit
  snapshots : List Snapshot
  captureMarkdown : Option String
  startTime : Int
  stepMs : Nat → Nat

/-- The n-th `Date.now()` reading of a run: the start time plus the
durations elapsed between consecutive readings. -/
def clockAt (d : DriveEnv) : Nat → Int
  | 0 => d.startTime
  | n + 1 => clockAt d n + d.stepMs n

/-- Outcomes of every collaborator call made by one `runBrowserMode`
invocation. -/
structure Env where
  traceEnvVar : Bool
  userDataDir : String
  launch : Except BrowserError Chrome
  hooksOk : Bool
  connect : Except BrowserError Unit
  cookieCount : Nat
  drive : DriveEnv

/-- Observable resource events of one call, in order of occurrence. -/
inductive Event where
  | profileCreated
  | chromeLaunched
  | hooksRegistered
  | sessionConnected
  | windowHidden
  | domainsEnabled
  | cookiesCleared
  | cookiesSynced (count : Nat)
  | navigationStarted
  | blockChecked
  | promptReady
  | modelSelectionStarted
  | promptSubmitted
  | responseReceived
  | markdownCaptured
  | sessionClosed
  | hooksDeregistered
  | chromeKilled
  | profileDeleted
deriving DecidableEq, Repr

/-- Observable state of one call: the log lines sent to the caller-supplied
sink, the event trace (each event paired with whether the temporary profile
directory existed at that moment), resource flags, and how many times each
cleanup action ran. -/
structure RunState where
  logs : List String := []
  trace : List (Event × Bool) := []
  profileExists : Bool := false
  sessionOpen : Bool := false
  hooksRegistered : Bool := false
  closeCount : Nat := 0
  deregisterCount : Nat := 0
  killCount : Nat := 0
  deleteCount : Nat := 0
deriving DecidableEq, Repr

/-- Append a line to the caller-supplied log sink. -/
def logLine (s : RunState) (line : String) : RunState :=
  { s with logs := s.logs ++ [line] }

/-- Record an event, tagged with whether the profile directory exists. -/
def emit (s : RunState) (e : Event) : RunState :=
  { s with trace := s.trace ++ [(e, s.profileExists)] }

/-- Events of a trace, without the profile flags. -/
def eventsOf (s : RunState) : List Event :=
  s.trace.map Prod.fst

/-- JavaScript whitespace as stripped by `String.prototype.trim`
(restricted to the ASCII whitespace characters relevant here). -/
def isJsWhitespace (c : Char) : Bool :=
  c == ' ' || c == '\t' || c == '\n' || c == '\r'

/-- Model of JavaScript `String.prototype.trim` as applied to the prompt
(`options.prompt?.trim()`, `index.ts` line 24). -/
def jsTrim (s : String) : String :=
  ⟨((s.data.dropWhile isJsWhitespace).reverse.dropWhile isJsWhitespace).reverse⟩

/-- JavaScript truthiness of `config.desiredModel` as tested by
`if (config.desiredModel)` (`index.ts` line 83): present and non-empty. -/
def modelConfigured (c : BrowserConfig) : Bool :=
  match c.desiredModel with
  | some m => m != ""
  | none => false

/-- Non-emptiness and byte-stability of the current poll against the
previous one (spec section 4.4 state 6). -/
def stableWith (cur : Snapshot) (prev : Option Snapshot) : Bool :=
  match prev with
  | some p => cur.text != "" && cur.text == p.text && cur.html == p.html
  | none => false

/-- Modelled from the spec: `waitForAssistantResponse` (pageActions.ts is
absent from the sources).  Spec section 4.4 state 6: completion is inferred by
polling the response container and declaring completion when content has been
non-empty and byte-stable across two consecutive polls, or when a known
"generation complete" UI affordance appears, whichever is detected first; the
hard overall timeout (modelled by exhausting the poll stream `l`) fails with
`ResponseTimeout`, returning whatever partial text had accumulated; `prev` is
the previous poll (absent on the first poll). -/
def awaitStableResponse (l : List Snapshot) (prev : Option Snapshot) :
    Except BrowserError Answer :=
  match l with
  | [] => .error (.responseTimeout ((prev.map Snapshot.text).getD ""))
  | cur :: rest =>
    if cur.doneAffordance || stableWith cur prev then .ok ⟨cur.text, some cur.html, cur.meta⟩
    else awaitStableResponse rest (some cur)

/-- Text of the last snapshot of a poll stream (empty for an empty stream). -/
def lastSnapshotText : List Snapshot → String
  | [] => ""
  | [single] => single.text
  | _ :: rest => lastSnapshotText rest

/-- Text carried by the `ResponseTimeout` of an exhausted poll stream. -/
def pollTimeoutText (l : List Snapshot) (p : Option Snapshot) : String :=
  match l with
  | [] => (p.map Snapshot.text).getD ""
  | _ => lastSnapshotText l

/-- Modelled from the spec: `estimateTokenCount` (utils.ts is absent from the
sources); an estimated token count derived from the character count. -/
def estimateTokenCount (s : String) : Nat :=
  (s.length + 3) / 4

/-- Modelled from the spec: `resolveBrowserConfig` (config.ts is absent from
the sources); configuration is resolved once per call, modelled as already
resolved. -/
def resolveBrowserConfig (c : BrowserConfig) : BrowserConfig := c

/-- Per-call context shared by the driver phases: driver-step outcomes,
resolved config, the Chrome handle, the profile directory and the
`Date.now()` reading taken at `index.ts` line 52. -/
structure Ctx where
  denv : DriveEnv
  config : BrowserConfig
  chrome : Chrome
  userDataDir : String
  startedAt : Int

/-- Response-awaiting and extraction (`index.ts` lines 88-107): wait for the
assistant response, capture markdown via the copy-as-markdown affordance with
fallback to the plain text, and package the `BrowserRunResult`.
`captureAssistantMarkdown` is modelled from the spec (pageActions.ts is
absent): it never throws and yields `none` when the affordance is missing or
the capture fails. -/
def phaseAwait (ctx : Ctx) (s : RunState) : Except BrowserError BrowserRunResult × RunState :=
  match awaitStableResponse ctx.denv.snapshots none with
  | .error e => (.error e, s)
  | .ok answer =>
    let s := emit s .responseReceived
    let answerText := answer.text
    let answerHtml := answer.html.getD ""
    let answerMarkdown := ctx.denv.captureMarkdown.getD answerText
    let s := emit s .markdownCaptured
    let durationMs := clockAt ctx.denv 1 - ctx.startedAt
    (.ok {
      answerText := answerText
      answerMarkdown := answerMarkdown
      answerHtml := if answerHtml.length > 0 then some answerHtml else none
      tookMs := durationMs
      answerTokens := estimateTokenCount answerMarkdown
      answerChars := answerText.length
      chromePid := ctx.chrome.pid
      chromePort := ctx.chrome.port
      userDataDir := ctx.userDataDir }, s)

/-- Prompt submission (`index.ts` line 87). -/
def phaseSubmit (ctx : Ctx) (s : RunState) : Except BrowserError BrowserRunResult × RunState :=
  match ctx.denv.submit with
  | .error e => (.error e, s)
  | .ok _ => phaseAwait ctx (emit s .promptSubmitted)

/-- Input readiness and optional model selection (`index.ts` lines 82-86):
the model-selection step runs only when `config.desiredModel` is truthy, and
is followed by a second readiness wait. -/
def phaseReady (ctx : Ctx) (s : RunState) : Except BrowserError BrowserRunResult × RunState :=
  match ctx.denv.promptReady1 with
  | .error e => (.error e, s)
  | .ok _ =>
    let s := emit s .promptReady
    if modelConfigured ctx.config then
      let s := emit s .modelSelectionStarted
      match ctx.denv.modelSelection with
      | .error e => (.error e, s)
      | .ok _ =>
        match ctx.denv.promptReady2 with
        | .error e => (.error e, s)
        | .ok _ => phaseSubmit ctx s
    else phaseSubmit ctx s

/-- Block detection (`index.ts` line 81). -/
def phaseBlock (ctx : Ctx) (s : RunState) : Except BrowserError BrowserRunResult × RunState :=
  match ctx.denv.notBlocked with
  | .error e => (.error e, s)
  | .ok _ => phaseReady ctx (emit s .blockChecked)

/-- Navigation (`index.ts` line 80); `navigationStarted` marks the moment the
navigation call is issued. -/
def phaseNavigate (ctx : Ctx) (s : RunState) : Except BrowserError BrowserRunResult × RunState :=
  let s := emit s .navigationStarted
  match ctx.denv.navigate with
  | .error e => (.error e, s)
  | .ok _ => phaseBlock ctx s

/-- Body of the try block (`index.ts` lines 58-107): connect, optionally hide
the window, enable the network/page/runtime domains together and join them
(`Promise.all`, recorded as the single `domainsEnabled` event), clear
cookies, optionally sync cookies from the local profile (`syncCookies` is
modelled from the spec, cookies.ts being absent: it returns the number of
cookies injected and zero is a valid, non-error result), then drive the page.
-/
def tryBody (connect : Except BrowserError Unit) (cookieCount : Nat) (ctx : Ctx)
    (s : RunState) : Except BrowserError BrowserRunResult × RunState :=
  match connect with
  | .error e => (.error e, s)
  | .ok _ =>
    let s := emit { s with sessionOpen := true } .sessionConnected
    let s := if !ctx.config.headless && ctx.config.hideWindow then emit s .windowHidden else s
    let s := emit s .domainsEnabled
    let s := emit s .cookiesCleared
    let s :=
      if ctx.config.cookieSync then
        let s := emit s (.cookiesSynced cookieCount)
        logLine s
          (if cookieCount > 0 then
            "Copied " ++ toString cookieCount ++ " cookies from Chrome profile " ++
              ctx.config.chromeProfile.getD "Default"
          else "No Chrome cookies found; continuing without session reuse")
      else logLine s "Skipping Chrome cookie sync (--browser-no-cookie-sync)"
    phaseNavigate ctx s

/-- Finally block (`index.ts` lines 115-133): close the control session if
one was opened (close failures are swallowed by the source's try/catch and
modelled as infallible disposal), deregister the termination hooks if they
were registered, and, unless `keepBrowser`, kill Chrome and delete the
temporary profile directory. -/
def finallyCleanup (ctx : Ctx) (runStatus : String) (s : RunState) : RunState :=
  let s := if s.sessionOpen then
      emit { s with sessionOpen := false, closeCount := s.closeCount + 1 } .sessionClosed
    else s
  let s := if s.hooksRegistered then
      emit { s with hooksRegistered := false, deregisterCount := s.deregisterCount + 1 }
        .hooksDeregistered
    else s
  if !ctx.config.keepBrowser then
    let s := emit { s with killCount := s.killCount + 1 } .chromeKilled
    let s := emit { s with profileExists := false, deleteCount := s.deleteCount + 1 }
      .profileDeleted
    logLine s ("Cleanup " ++ runStatus ++ " after " ++
      toString (clockAt ctx.denv 2 - ctx.startedAt) ++ "ms total")
  else
    logLine s ("Chrome left running on port " ++ toString ctx.chrome.port ++
      " with profile " ++ ctx.userDataDir)

/-- Steps before the browser launch (`index.ts` lines 29-41): the optional
debug log line, the `mkdtemp` profile creation and its log line. -/
def preLaunch (env : Env) (config : BrowserConfig) (promptText : String) : RunState :=
  let s : RunState := {}
  let s := if config.debug || env.traceEnvVar then
      logLine s ("[browser-mode] config: promptLength=" ++ toString promptText.length)
    else s
  let s := emit { s with profileExists := true } .profileCreated
  logLine s ("Created temporary Chrome profile at " ++ env.userDataDir)

/-- Everything after a successful launch (`index.ts` lines 44-134):
best-effort termination-hook registration whose failure is silently ignored
(the empty catch of lines 47-49), the try body, the catch-block log line, and
the finally block. -/
def launched (env : Env) (config : BrowserConfig) (chrome : Chrome) (s : RunState) :
    Except RunError BrowserRunResult × RunState :=
  let s := emit s .chromeLaunched
  let s := if env.hooksOk then emit { s with hooksRegistered := true } .hooksRegistered else s
  let ctx : Ctx := ⟨env.drive, config, chrome, env.userDataDir, clockAt env.drive 0⟩
  let r := tryBody env.connect env.cookieCount ctx s
  let body := r.1
  let s := r.2
  let s := match body with
    | .error e => logLine s ("Failed to complete ChatGPT run: " ++ e.message)
    | .ok _ => s
  let s := finallyCleanup ctx (match body with | .ok _ => "complete" | .error _ => "attempted") s
  (body.mapError RunError.driver, s)

/-- The run orchestrator `runBrowserMode` (`index.ts` lines 23-135).  The
prompt guard runs first; the temporary profile is created and Chrome is
launched before the try block, so a launch failure returns without entering
the cleanup path. -/
def runBrowserMode (env : Env) (options : BrowserRunOptions) :
    Except RunError BrowserRunResult × RunState :=
  match options.prompt.map jsTrim with
  | none => (.error .promptRequired, {})
  | some promptText =>
    if promptText = "" then (.error .promptRequired, {})
    else
      let config := resolveBrowserConfig options.config
      let s := preLaunch env config promptText
      match env.launch with
      | .error e => (.error (.driver e), s)
      | .ok chrome => launched env config chrome s

/-- Page-side state read and written by the picker injection script
(scripts/browser-tools.ts, the `pick` command's first `page.evaluate`):
the idempotency marker `pickOverlayInjected`, whether the `pick` function is
installed, and how many times the installation body actually ran. -/
structure PageScope where
  pickOverlayInjected : Bool := false
  pickInstalled : Bool := false
  pickInstallCount : Nat := 0
deriving DecidableEq, Repr

/-- The picker injection script: returns early when the idempotency marker is
already set, otherwise sets the marker and installs the `pick` function. -/
def injectPickScript (scope : PageScope) : PageScope :=
  if scope.pickOverlayInjected then scope
  else { scope with
    pickOverlayInjected := true
    pickInstalled := true
    pickInstallCount := scope.pickInstallCount + 1 }

/-- Events `e₁` occurs strictly before `e₂` in the list `tr`. -/
def beforeIn (tr : List Event) (e₁ e₂ : Event) : Prop :=
  ∃ l₁ l₂ l₃, tr = l₁ ++ e₁ :: l₂ ++ e₂ :: l₃

/-- Concrete happy-path driver environment used by the witnesses: every step
succeeds and the response stabilizes on the second poll. -/
def sampleDrive : DriveEnv where
  navigate := .ok ()
  notBlocked := .ok ()
  promptReady1 := .ok ()
  modelSelection := .ok ()
  promptReady2 := .ok ()
  submit := .ok ()
  snapshots := [⟨"OK!", "<p>OK!</p>", none, false⟩, ⟨"OK!", "<p>OK!</p>", none, false⟩]
  captureMarkdown := some "**OK!**"
  startTime := 0
  stepMs := fun _ => 1

/-- Concrete resolved configuration used by the witnesses. -/
def sampleConfig : BrowserConfig where
  url := "https://chatgpt.com/"
  desiredModel := some "GPT-5 Pro"
  chromeProfile := some "Default"
  inputTimeoutMs := 5000
  timeoutMs := 30000
  headless := false
  hideWindow := true
  keepBrowser := false
  cookieSync := true
  debug := false

/-- Concrete happy-path environment used by the witnesses. -/
def sampleEnv : Env where
  traceEnvVar := false
  userDataDir := "/tmp/oracle-browser-sample"
  launch := .ok ⟨1234, 9222⟩
  hooksOk := true
  connect := .ok ()
  cookieCount := 3
  drive := sampleDrive

/-- Concrete call input used by the witnesses. -/
def sampleOptions : BrowserRunOptions where
  prompt := some "Say OK."
  config := sampleConfig

/-- Characterization of the extraction phase: its result value does not
depend on the incoming state, and it only appends to the logs and the trace,
tagging appended events with the current profile flag. -/
theorem phaseAwait_split (ctx : Ctx) :
    ∃ (v : Except BrowserError BrowserRunResult) (Δev : List Event) (Δlog : List String),
      (modelConfigured ctx.config = false → Event.modelSelectionStarted ∉ Δev) ∧
      (∀ r, v = Except.ok r → r.tookMs = clockAt ctx.denv 1 - ctx.startedAt) ∧
      ∀ s, phaseAwait ctx s =
        (v, { s with logs := s.logs ++ Δlog,
                     trace := s.trace ++ Δev.map (fun e => (e, s.profileExists)) }) := by
  cases h : awaitStableResponse ctx.denv.snapshots none with
  | error e =>
    exact ⟨.error e, [], [], by simp, by simp, fun s => by simp [phaseAwait, h]⟩
  | ok a =>
    refine ⟨.ok {
        answerText := a.text
        answerMarkdown := ctx.denv.captureMarkdown.getD a.text
        answerHtml := if (a.html.getD "").length > 0 then some (a.html.getD "") else none
        tookMs := clockAt ctx.denv 1 - ctx.startedAt
        answerTokens := estimateTokenCount (ctx.denv.captureMarkdown.getD a.text)
        answerChars := a.text.length
        chromePid := ctx.chrome.pid
        chromePort := ctx.chrome.port
        userDataDir := ctx.userDataDir },
      [.responseReceived, .markdownCaptured], [], by simp, ?_, fun s => ?_⟩
    · intro r hr
      cases hr
      rfl
    · simp [phaseAwait, h, emit, List.append_assoc]

/-- Characterization of the submission phase, in the style of
`phaseAwait_split`. -/
theorem phaseSubmit_split (ctx : Ctx) :
    ∃ (v : Except BrowserError BrowserRunResult) (Δev : List Event) (Δlog : List String),
      (modelConfigured ctx.config = false → Event.modelSelectionStarted ∉ Δev) ∧
      (∀ r, v = Except.ok r → r.tookMs = clockAt ctx.denv 1 - ctx.startedAt) ∧
      ∀ s, phaseSubmit ctx s =
        (v, { s with logs := s.logs ++ Δlog,
                     trace := s.trace ++ Δev.map (fun e => (e, s.profileExists)) }) := by
  cases h : ctx.denv.submit with
  | error e =>
    exact ⟨.error e, [], [], by simp, by simp, fun s => by simp [phaseSubmit, h]⟩
  | ok _ =>
    obtain ⟨v, Δev, Δlog, hsel, hms, hrun⟩ := phaseAwait_split ctx
    refine ⟨v, .promptSubmitted :: Δev, Δlog, ?_, hms, fun s => ?_⟩
    · intro hmc
      simp [hsel hmc]
    · rw [phaseSubmit]
      simp only [h]
      rw [hrun (emit s .promptSubmitted)]
      simp [emit, List.append_assoc]

/-- Characterization of the readiness / model-selection phase, in the style
of `phaseAwait_split`: the `modelSelectionStarted` event is appended only
when a model is configured. -/
theorem phaseReady_split (ctx : Ctx) :
    ∃ (v : Except BrowserError BrowserRunResult) (Δev : List Event) (Δlog : List String),
      (modelConfigured ctx.config = false → Event.modelSelectionStarted ∉ Δev) ∧
      (∀ r, v = Except.ok r → r.tookMs = clockAt ctx.denv 1 - ctx.startedAt) ∧
      ∀ s, phaseReady ctx s =
        (v, { s with logs := s.logs ++ Δlog,
                     trace := s.trace ++ Δev.map (fun e => (e, s.profileExists)) }) := by
  cases h1 : ctx.denv.promptReady1 with
  | error e =>
    exact ⟨.error e, [], [], by simp, by simp, fun s => by simp [phaseReady, h1]⟩
  | ok _ =>
    by_cases hmc : modelConfigured ctx.config = true
    · cases h2 : ctx.denv.modelSelection with
      | error e =>
        refine ⟨.error e, [.promptReady, .modelSelectionStarted], [], ?_, by simp,
          fun s => ?_⟩
        · intro hf
          rw [hf] at hmc
          exact absurd hmc (by simp)
        · simp [phaseReady, h1, hmc, h2, emit, List.append_assoc]
      | ok _ =>
        cases h3 : ctx.denv.promptReady2 with
        | error e =>
          refine ⟨.error e, [.promptReady, .modelSelectionStarted], [], ?_, by simp,
            fun s => ?_⟩
          · intro hf
            rw [hf] at hmc
            exact absurd hmc (by simp)
          · simp [phaseReady, h1, hmc, h2, h3, emit, List.append_assoc]
        | ok _ =>
          obtain ⟨v, Δev, Δlog, _, hms, hrun⟩ := phaseSubmit_split ctx
          refine ⟨v, .promptReady :: .modelSelectionStarted :: Δev, Δlog, ?_, hms,
            fun s => ?_⟩
          · intro hf
            rw [hf] at hmc
            exact absurd hmc (by simp)
          · rw [phaseReady]
            simp only [h1, hmc, if_true, h2, h3]
            rw [hrun (emit (emit s .promptReady) .modelSelectionStarted)]
            simp [emit, List.append_assoc]
    · obtain ⟨v, Δev, Δlog, hsel, hms, hrun⟩ := phaseSubmit_split ctx
      have hmcf : modelConfigured ctx.config = false := by
        simpa using hmc
      refine ⟨v, .promptReady :: Δev, Δlog, ?_, hms, fun s => ?_⟩
      · intro hf
        simp [hsel hf]
      · rw [phaseReady]
        simp only [h1, hmcf, if_false]
        rw [hrun (emit s .promptReady)]
        simp [emit, List.append_assoc]

/-- Characterization of the block-detection phase, in the style of
`phaseAwait_split`. -/
theorem phaseBlock_split (ctx : Ctx) :
    ∃ (v : Except BrowserError BrowserRunResult) (Δev : List Event) (Δlog : List String),
      (modelConfigured ctx.config = false → Event.modelSelectionStarted ∉ Δev) ∧
      (∀ r, v = Except.ok r → r.tookMs = clockAt ctx.denv 1 - ctx.startedAt) ∧
      ∀ s, phaseBlock ctx s =
        (v, { s with logs := s.logs ++ Δlog,
                     trace := s.trace ++ Δev.map (fun e => (e, s.profileExists)) }) := by
  cases h : ctx.denv.notBlocked with
  | error e =>
    exact ⟨.error e, [], [], by simp, by simp, fun s => by simp [phaseBlock, h]⟩
  | ok _ =>
    obtain ⟨v, Δev, Δlog, hsel, hms, hrun⟩ := phaseReady_split ctx
    refine ⟨v, .blockChecked :: Δev, Δlog, ?_, hms, fun s => ?_⟩
    · intro hmc
      simp [hsel hmc]
    · rw [phaseBlock]
      simp only [h]
      rw [hrun (emit s .blockChecked)]
      simp [emit, List.append_assoc]

/-- Characterization of the navigation phase: the `navigationStarted` event
heads everything the driver appends from here on. -/
theorem phaseNavigate_split (ctx : Ctx) :
    ∃ (v : Except BrowserError BrowserRunResult) (Δrest : List Event) (Δlog : List String),
      (modelConfigured ctx.config = false → Event.modelSelectionStarted ∉ Δrest) ∧
      (∀ r, v = Except.ok r → r.tookMs = clockAt ctx.denv 1 - ctx.startedAt) ∧
      ∀ s, phaseNavigate ctx s =
        (v, { s with logs := s.logs ++ Δlog,
                     trace := s.trace ++
                       ((Event.navigationStarted :: Δrest).map
                         (fun e => (e, s.profileExists))) }) := by
  cases h : ctx.denv.navigate with
  | error e =>
    exact ⟨.error e, [], [], by simp, by simp,
      fun s => by simp [phaseNavigate, h, emit]⟩
  | ok _ =>
    obtain ⟨v, Δev, Δlog, hsel, hms, hrun⟩ := phaseBlock_split ctx
    refine ⟨v, Δev, Δlog, hsel, hms, fun s => ?_⟩
    rw [phaseNavigate]
    simp only [h]
    rw [hrun (emit s .navigationStarted)]
    simp [emit, List.append_assoc]

/-- Characterization of the try-block body: its result value depends neither
on the incoming state nor on the cookie count; it only appends to the logs
and the trace and opens the session exactly when the connection succeeded;
past a successful connection the appended events join the domains and inject
the cookies (when cookie sync is enabled) strictly before `navigationStarted`.
-/
theorem tryBody_split (connect : Except BrowserError Unit) (ctx : Ctx) :
    ∃ (v : Except BrowserError BrowserRunResult) (Δev : Nat → List Event)
      (Δlog : Nat → List String),
      (∀ n, modelConfigured ctx.config = false → Event.modelSelectionStarted ∉ Δev n) ∧
      (∀ r, v = Except.ok r → r.tookMs = clockAt ctx.denv 1 - ctx.startedAt) ∧
      (∀ n, connect.isOk = true →
        ∃ rest, Δev n =
            [.sessionConnected] ++
            (if !ctx.config.headless && ctx.config.hideWindow then [.windowHidden] else []) ++
            [.domainsEnabled, .cookiesCleared] ++
            (if ctx.config.cookieSync then [.cookiesSynced n] else []) ++
            .navigationStarted :: rest ∧
          (modelConfigured ctx.config = false → Event.modelSelectionStarted ∉ rest)) ∧
      (∀ n, connect.isOk = true →
        ∃ restLog, Δlog n =
          (if ctx.config.cookieSync then
            [if n > 0 then
              "Copied " ++ toString n ++ " cookies from Chrome profile " ++
                ctx.config.chromeProfile.getD "Default"
            else "No Chrome cookies found; continuing without session reuse"]
          else ["Skipping Chrome cookie sync (--browser-no-cookie-sync)"]) ++ restLog) ∧
      ∀ n s, tryBody connect n ctx s =
        (v, { s with logs := s.logs ++ Δlog n,
                     trace := s.trace ++ (Δev n).map (fun e => (e, s.profileExists)),
                     sessionOpen := s.sessionOpen || connect.isOk }) := by
  cases connect with
  | error e =>
    refine ⟨.error e, fun _ => [], fun _ => [], by simp, by simp, ?_, ?_, fun n s => ?_⟩
    · intro n h
      simp [Except.isOk, Except.toBool] at h
    · intro n h
      simp [Except.isOk, Except.toBool] at h
    · simp [tryBody, Except.isOk, Except.toBool]
  | ok _ =>
    obtain ⟨v, Δrest, Δlog', hsel, hms, hrun⟩ := phaseNavigate_split ctx
    refine ⟨v,
      fun n =>
        [.sessionConnected] ++
        (if !ctx.config.headless && ctx.config.hideWindow then [.windowHidden] else []) ++
        [.domainsEnabled, .cookiesCleared] ++
        (if ctx.config.cookieSync then [.cookiesSynced n] else []) ++
        .navigationStarted :: Δrest,
      fun n =>
        (if ctx.config.cookieSync then
          [if n > 0 then
            "Copied " ++ toString n ++ " cookies from Chrome profile " ++
              ctx.config.chromeProfile.getD "Default"
          else "No Chrome cookies found; continuing without session reuse"]
        else ["Skipping Chrome cookie sync (--browser-no-cookie-sync)"]) ++ Δlog',
      ?_, hms, ?_, ?_, fun n s => ?_⟩
    · intro n hmc
      have := hsel hmc
      by_cases h1 : (!ctx.config.headless && ctx.config.hideWindow) = true <;>
        by_cases h2 : ctx.config.cookieSync = true <;>
          simp [h1, h2, this]
    · intro n _
      exact ⟨Δrest, rfl, hsel⟩
    · intro n _
      exact ⟨Δlog', rfl⟩
    · rw [tryBody]
      by_cases h1 : (!ctx.config.headless && ctx.config.hideWindow) = true <;>
        by_cases h2 : ctx.config.cookieSync = true <;>
          · simp only [h1, h2, if_true, if_false, Bool.false_eq_true]
            first
            | (rw [hrun]; simp [emit, logLine, Except.isOk, Except.toBool, List.append_assoc])

/-- Explicit form of the pre-launch steps: the optional debug line and the
profile-creation line are logged, the profile exists, and nothing else has
happened yet. -/
theorem preLaunch_spec (env : Env) (config : BrowserConfig) (promptText : String) :
    preLaunch env config promptText =
      { logs := (if config.debug || env.traceEnvVar then
            ["[browser-mode] config: promptLength=" ++ toString promptText.length]
          else []) ++ ["Created temporary Chrome profile at " ++ env.userDataDir],
        trace := [(.profileCreated, true)],
        profileExists := true } := by
  by_cases h : (config.debug || env.traceEnvVar) = true <;>
    simp [preLaunch, h, emit, logLine]

/-- Explicit form of the finally block: the session is closed if it was open,
the hooks are deregistered if they were registered, and unless `keepBrowser`
the process is killed once and the profile directory is deleted once; exactly
one closing log line is emitted. -/
theorem finallyCleanup_spec (ctx : Ctx) (rs : String) (s : RunState) :
    finallyCleanup ctx rs s =
      { logs := s.logs ++
          [if ctx.config.keepBrowser then
            "Chrome left running on port " ++ toString ctx.chrome.port ++
              " with profile " ++ ctx.userDataDir
          else "Cleanup " ++ rs ++ " after " ++
            toString (clockAt ctx.denv 2 - ctx.startedAt) ++ "ms total"],
        trace := s.trace ++
          (if s.sessionOpen then [(.sessionClosed, s.profileExists)] else []) ++
          (if s.hooksRegistered then [(.hooksDeregistered, s.profileExists)] else []) ++
          (if ctx.config.keepBrowser then []
            else [(.chromeKilled, s.profileExists), (.profileDeleted, false)]),
        profileExists := if ctx.config.keepBrowser then s.profileExists else false,
        sessionOpen := false,
        hooksRegistered := false,
        closeCount := s.closeCount + (if s.sessionOpen then 1 else 0),
        deregisterCount := s.deregisterCount + (if s.hooksRegistered then 1 else 0),
        killCount := s.killCount + (if ctx.config.keepBrowser then 0 else 1),
        deleteCount := s.deleteCount + (if ctx.config.keepBrowser then 0 else 1) } := by
  by_cases h1 : s.sessionOpen = true <;>
    by_cases h2 : s.hooksRegistered = true <;>
      by_cases h3 : ctx.config.keepBrowser = true <;>
        simp [finallyCleanup, h1, h2, h3, emit, logLine, List.append_assoc]

/-- When the poll loop exhausts its stream, the `ResponseTimeout` it raises
carries the text of the last snapshot observed (or of the previous snapshot
`p` when the stream is empty). -/
theorem awaitStable_timeout_text (l : List Snapshot) (p : Option Snapshot) (t : String)
    (h : awaitStableResponse l p = .error (.responseTimeout t)) :
    t = pollTimeoutText l p := by
  induction l generalizing p with
  | nil =>
    simp [awaitStableResponse] at h
    simp [pollTimeoutText, h]
  | cons cur rest ih =>
    rw [awaitStableResponse] at h
    by_cases hc : (cur.doneAffordance || stableWith cur p) = true
    · rw [if_pos hc] at h
      exact absurd h (by simp)
    · rw [if_neg hc] at h
      have hrec := ih (some cur) h
      cases rest with
      | nil => simpa [pollTimeoutText, lastSnapshotText] using hrec
      | cons b bs => simpa [pollTimeoutText, lastSnapshotText] using hrec

/-- A list of the form `A ++ e₁ :: B ++ e₂ :: C` orders `e₁` before `e₂`. -/
theorem beforeIn_of_append (A B C : List Event) (e₁ e₂ : Event) :
    beforeIn (A ++ e₁ :: B ++ e₂ :: C) e₁ e₂ :=
  ⟨A, B, C, rfl⟩

/-- Base case for ordering proofs: `e₁` at the head, `e₂` somewhere later. -/
theorem beforeIn_here {l : List Event} {e₁ e₂ : Event} (h : e₂ ∈ l) :
    beforeIn (e₁ :: l) e₁ e₂ := by
  obtain ⟨a, b, rfl⟩ := List.append_of_mem h
  exact ⟨[], a, b, rfl⟩

/-- Ordering is preserved under a fresh head element. -/
theorem beforeIn_cons {x : Event} {l : List Event} {e₁ e₂ : Event}
    (h : beforeIn l e₁ e₂) : beforeIn (x :: l) e₁ e₂ := by
  obtain ⟨A, B, C, rfl⟩ := h
  exact ⟨x :: A, B, C, rfl⟩

/-- Ordering is preserved under prepending a list. -/
theorem beforeIn_append_left {a l : List Event} {e₁ e₂ : Event}
    (h : beforeIn l e₁ e₂) : beforeIn (a ++ l) e₁ e₂ := by
  obtain ⟨A, B, C, rfl⟩ := h
  exact ⟨a ++ A, B, C, by simp⟩

/-- Tagging events with a flag and projecting the flags away is the
identity. -/
theorem eventsOf_map_tag (Δ : List Event) (b : Bool) :
    List.map Prod.fst (Δ.map (fun e => (e, b))) = Δ := by
  induction Δ with
  | nil => simp
  | cons a l ih => simp [ih]

/-- C9: the picker injection script is idempotent through the
`pickOverlayInjected` marker: injecting into a page whose marker is already
set leaves the page state unchanged, and injecting twice is equivalent to
injecting once. -/
theorem pick_injection_idempotent (scope : PageScope) :
    (scope.pickOverlayInjected = true → injectPickScript scope = scope) ∧
    injectPickScript (injectPickScript scope) = injectPickScript scope := by
  constructor
  · intro h
    simp [injectPickScript, h]
  · by_cases h : scope.pickOverlayInjected = true <;>
      simp [injectPickScript, h]

/-- Witness for C9 at concrete page states. -/
theorem pick_injection_idempotent_witness :
    (PageScope.mk true true 1).pickOverlayInjected = true ∧
    injectPickScript (PageScope.mk true true 1) = PageScope.mk true true 1 ∧
    injectPickScript (injectPickScript (PageScope.mk false false 0)) =
      injectPickScript (PageScope.mk false false 0) :=
  ⟨rfl, (pick_injection_idempotent (PageScope.mk true true 1)).1 rfl,
    (pick_injection_idempotent (PageScope.mk false false 0)).2⟩

/-- C10: a missing, empty, or whitespace-only prompt makes `runBrowserMode`
throw before allocating any resource: no log line is emitted, no event
occurs (in particular no profile creation, no launch, no connection), and no
profile directory exists. -/
theorem empty_prompt_allocates_nothing (env : Env) (options : BrowserRunOptions)
    (h : options.prompt = none ∨ ∃ p, options.prompt = some p ∧ jsTrim p = "") :
    runBrowserMode env options = (.error .promptRequired, {}) ∧
    (runBrowserMode env options).2.trace = [] ∧
    (runBrowserMode env options).2.logs = [] ∧
    (runBrowserMode env options).2.profileExists = false := by
  rcases h with h | ⟨p, hp, ht⟩
  · refine ⟨?_, ?_, ?_, ?_⟩ <;> simp [runBrowserMode, h]
  · refine ⟨?_, ?_, ?_, ?_⟩ <;> simp [runBrowserMode, hp, ht]

/-- Witness for C10 at a whitespace-only prompt. -/
theorem empty_prompt_allocates_nothing_witness :
    (BrowserRunOptions.mk (some "   ") sampleConfig).prompt = some "   " ∧
    jsTrim "   " = "" ∧
    runBrowserMode sampleEnv (BrowserRunOptions.mk (some "   ") sampleConfig) =
      (.error .promptRequired, {}) :=
  ⟨rfl, by decide,
    (empty_prompt_allocates_nothing sampleEnv (BrowserRunOptions.mk (some "   ") sampleConfig)
      (Or.inr ⟨"   ", rfl, by decide⟩)).1⟩

/-- C5: on a successful run, `answerMarkdown` is the payload captured via the
copy-as-markdown affordance when that capture yields one, and falls back to
the captured plain `answerText` when the affordance is missing or the capture
fails (yields nothing). -/
theorem markdown_capture_fallback (env : Env) (options : BrowserRunOptions) (p : String)
    (hp : options.prompt = some p) (hpt : jsTrim p ≠ "")
    (ch : Chrome) (hl : env.launch = .ok ch)
    (hc : env.connect = .ok ())
    (hnav : env.drive.navigate = .ok ()) (hnb : env.drive.notBlocked = .ok ())
    (hr1 : env.drive.promptReady1 = .ok ())
    (hmodel : modelConfigured options.config = true →
      env.drive.modelSelection = .ok () ∧ env.drive.promptReady2 = .ok ())
    (hsub : env.drive.submit = .ok ())
    (a : Answer) (hw : awaitStableResponse env.drive.snapshots none = .ok a) :
    ∃ r, (runBrowserMode env options).1 = .ok r ∧
      r.answerText = a.text ∧
      r.answerMarkdown = env.drive.captureMarkdown.getD a.text ∧
      (∀ m, env.drive.captureMarkdown = some m → r.answerMarkdown = m) ∧
      (env.drive.captureMarkdown = none → r.answerMarkdown = r.answerText) := by
  by_cases hmc : modelConfigured options.config = true
  · obtain ⟨hms, hr2⟩ := hmodel hmc
    simp only [runBrowserMode, hp, Option.map_some', resolveBrowserConfig, if_neg hpt, hl,
      launched, tryBody, hc, phaseNavigate, hnav, phaseBlock, hnb, phaseReady, hr1, hmc,
      if_true, hms, hr2, phaseSubmit, hsub, phaseAwait, hw, Except.mapError]
    refine ⟨_, rfl, rfl, rfl, fun m hm => ?_, fun hn => ?_⟩
    · simp [hm]
    · simp [hn]
  · have hmcf : modelConfigured options.config = false := by simpa using hmc
    simp only [runBrowserMode, hp, Option.map_some', resolveBrowserConfig, if_neg hpt, hl,
      launched, tryBody, hc, phaseNavigate, hnav, phaseBlock, hnb, phaseReady, hr1, hmcf,
      Bool.false_eq_true, if_false, phaseSubmit, hsub, phaseAwait, hw, Except.mapError]
    refine ⟨_, rfl, rfl, rfl, fun m hm => ?_, fun hn => ?_⟩
    · simp [hm]
    · simp [hn]

/-- Witness for C5 at the concrete happy-path environment. -/
theorem markdown_capture_fallback_witness :
    ∃ r, (runBrowserMode sampleEnv sampleOptions).1 = .ok r ∧
      r.answerText = (Answer.mk "OK!" (some "<p>OK!</p>") none).text ∧
      r.answerMarkdown =
        sampleEnv.drive.captureMarkdown.getD (Answer.mk "OK!" (some "<p>OK!</p>") none).text ∧
      (∀ m, sampleEnv.drive.captureMarkdown = some m → r.answerMarkdown = m) ∧
      (sampleEnv.drive.captureMarkdown = none → r.answerMarkdown = r.answerText) :=
  markdown_capture_fallback sampleEnv sampleOptions "Say OK." rfl (by decide)
    ⟨1234, 9222⟩ rfl rfl rfl rfl rfl (fun _ => ⟨rfl, rfl⟩) rfl
    (Answer.mk "OK!" (some "<p>OK!</p>") none) rfl

/-- C2: when the response-awaiting state times out, the caller receives the
`ResponseTimeout` failure carrying the partial answer text accumulated so
far, which equals the last observed (non-final) snapshot and in particular is
non-empty whenever that snapshot was. -/
theorem response_timeout_returns_partial (env : Env) (options : BrowserRunOptions)
    (p : String) (hp : options.prompt = some p) (hpt : jsTrim p ≠ "")
    (ch : Chrome) (hl : env.launch = .ok ch)
    (hc : env.connect = .ok ())
    (hnav : env.drive.navigate = .ok ()) (hnb : env.drive.notBlocked = .ok ())
    (hr1 : env.drive.promptReady1 = .ok ())
    (hmodel : modelConfigured options.config = true →
      env.drive.modelSelection = .ok () ∧ env.drive.promptReady2 = .ok ())
    (hsub : env.drive.submit = .ok ())
    (t : String)
    (hw : awaitStableResponse env.drive.snapshots none = .error (.responseTimeout t)) :
    (runBrowserMode env options).1 = .error (.driver (.responseTimeout t)) ∧
    t = lastSnapshotText env.drive.snapshots ∧
    (lastSnapshotText env.drive.snapshots ≠ "" → t ≠ "") := by
  have htext : t = lastSnapshotText env.drive.snapshots := by
    have h := awaitStable_timeout_text env.drive.snapshots none t hw
    cases hsnap : env.drive.snapshots with
    | nil =>
      rw [hsnap] at h
      simpa [pollTimeoutText, lastSnapshotText] using h
    | cons b bs =>
      rw [hsnap] at h
      simpa [pollTimeoutText] using h
  refine ⟨?_, htext, fun hne => htext ▸ hne⟩
  by_cases hmc : modelConfigured options.config = true
  · obtain ⟨hms, hr2⟩ := hmodel hmc
    simp only [runBrowserMode, hp, Option.map_some', resolveBrowserConfig, if_neg hpt, hl,
      launched, tryBody, hc, phaseNavigate, hnav, phaseBlock, hnb, phaseReady, hr1, hmc,
      if_true, hms, hr2, phaseSubmit, hsub, phaseAwait, hw, Except.mapError]
  · have hmcf : modelConfigured options.config = false := by simpa using hmc
    simp only [runBrowserMode, hp, Option.map_some', resolveBrowserConfig, if_neg hpt, hl,
      launched, tryBody, hc, phaseNavigate, hnav, phaseBlock, hnb, phaseReady, hr1, hmcf,
      Bool.false_eq_true, if_false, phaseSubmit, hsub, phaseAwait, hw, Except.mapError]

/-- Witness for C2 at a concrete environment whose response container never
stabilizes: the last observed snapshot is `"ab"`. -/
theorem response_timeout_returns_partial_witness :
    (runBrowserMode
        { sampleEnv with drive :=
          { sampleDrive with
            snapshots := [⟨"a", "", none, false⟩, ⟨"ab", "", none, false⟩] } }
        sampleOptions).1 =
      .error (.driver (.responseTimeout "ab")) ∧
    "ab" = lastSnapshotText
      ({ sampleDrive with
        snapshots := [⟨"a", "", none, false⟩, ⟨"ab", "", none, false⟩] } : DriveEnv).snapshots ∧
    (lastSnapshotText
        ({ sampleDrive with
          snapshots := [⟨"a", "", none, false⟩, ⟨"ab", "", none, false⟩] } : DriveEnv).snapshots ≠ "" →
      ("ab" : String) ≠ "") :=
  response_timeout_returns_partial
    { sampleEnv with drive :=
      { sampleDrive with snapshots := [⟨"a", "", none, false⟩, ⟨"ab", "", none, false⟩] } }
    sampleOptions "Say OK." rfl (by decide) ⟨1234, 9222⟩ rfl rfl rfl rfl rfl
    (fun _ => ⟨rfl, rfl⟩) rfl "ab" rfl

/-- C1: for every call that gets past the browser launch — whatever the
outcome of every later step, success or any typed failure — the cleanup runs
exactly once: the control session is closed (when one was opened), the
termination hooks are deregistered (when registration succeeded), and unless
`keepBrowser` the browser process is killed and the temporary profile
directory is deleted. -/
theorem cleanup_on_every_exit (env : Env) (options : BrowserRunOptions) (p : String)
    (hp : options.prompt = some p) (hpt : jsTrim p ≠ "")
    (ch : Chrome) (hl : env.launch = .ok ch) :
    (env.connect = .ok () →
      (runBrowserMode env options).2.closeCount = 1 ∧
      (runBrowserMode env options).2.sessionOpen = false) ∧
    (env.hooksOk = true → (runBrowserMode env options).2.deregisterCount = 1) ∧
    (options.config.keepBrowser = false →
      (runBrowserMode env options).2.killCount = 1 ∧
      (runBrowserMode env options).2.deleteCount = 1 ∧
      (runBrowserMode env options).2.profileExists = false) := by
  obtain ⟨v, Δev, Δlog, hsel, hms, hshape, hlogs, hrun⟩ :=
    tryBody_split env.connect ⟨env.drive, options.config, ch, env.userDataDir,
      clockAt env.drive 0⟩
  have hbool : ∀ b : Bool, b = true ∨ b = false := fun b => by
    cases b
    · exact Or.inr rfl
    · exact Or.inl rfl
  rcases hbool env.hooksOk with hhk | hhk <;>
    rcases v with ve | vr <;>
      refine ⟨fun hco => ?_, fun hreg => ?_, fun hk => ?_⟩ <;>
        simp_all only [runBrowserMode, hp, Option.map_some', if_neg hpt, hl,
          resolveBrowserConfig, launched, preLaunch_spec, hrun, finallyCleanup_spec,
          emit, logLine, Except.isOk, Except.toBool, Bool.false_eq_true, if_true, if_false,
          Bool.or_true, Bool.or_false] <;>
        simp

/-- C4: model selection is attempted precisely according to the configured
desired model: with no (truthy) desired model, no model-selection step occurs
on any exit path; with a desired model configured, the model-selection step
runs before prompt submission. -/
theorem model_selection_iff_configured (env : Env) (options : BrowserRunOptions) :
    (modelConfigured options.config = false →
      Event.modelSelectionStarted ∉ eventsOf (runBrowserMode env options).2) ∧
    (∀ p, options.prompt = some p → jsTrim p ≠ "" →
      ∀ ch, env.launch = .ok ch →
      env.connect = .ok () → env.drive.navigate = .ok () →
      env.drive.notBlocked = .ok () → env.drive.promptReady1 = .ok () →
      modelConfigured options.config = true →
      env.drive.modelSelection = .ok () → env.drive.promptReady2 = .ok () →
      env.drive.submit = .ok () →
      beforeIn (eventsOf (runBrowserMode env options).2)
        .modelSelectionStarted .promptSubmitted) := by
  constructor
  · intro hmc
    cases hp : options.prompt with
    | none => simp [runBrowserMode, hp, eventsOf]
    | some p =>
      by_cases hpt : jsTrim p = ""
      · simp [runBrowserMode, hp, hpt, eventsOf]
      · cases hl : env.launch with
        | error e =>
          simp [runBrowserMode, hp, if_neg hpt, hl, eventsOf, preLaunch_spec]
        | ok ch =>
          obtain ⟨v, Δev, Δlog, hsel, hms, hshape, hlogs, hrun⟩ :=
            tryBody_split env.connect ⟨env.drive, options.config, ch, env.userDataDir,
              clockAt env.drive 0⟩
          have hs : ∀ n, Event.modelSelectionStarted ∉ Δev n := fun n => hsel n hmc
          have hbool : ∀ b : Bool, b = true ∨ b = false := fun b => by
            cases b
            · exact Or.inr rfl
            · exact Or.inl rfl
          rcases hbool env.hooksOk with hhk | hhk <;>
            rcases v with ve | vr <;>
              simp_all [runBrowserMode, hp, if_neg hpt, hl, resolveBrowserConfig,
                launched, preLaunch_spec, hrun, finallyCleanup_spec, emit, logLine,
                eventsOf, eventsOf_map_tag]
  · intro p hp hpt ch hl hc hnav hnb hr1 hmc hms hr2 hsub
    obtain ⟨va, Δa, Δl, hsa, hma, hruna⟩ :=
      phaseAwait_split ⟨env.drive, options.config, ch, env.userDataDir, clockAt env.drive 0⟩
    rcases va with ve | vr <;>
    · simp only [runBrowserMode, hp, Option.map_some', if_neg hpt, hl, resolveBrowserConfig,
        launched, tryBody, hc, phaseNavigate, hnav, phaseBlock, hnb, phaseReady, hr1, hmc,
        if_true, hms, hr2, phaseSubmit, hsub, hruna, finallyCleanup_spec, preLaunch_spec,
        emit, logLine, eventsOf, List.map_append, eventsOf_map_tag]
      simp only [List.map_cons, List.map_nil, List.append_assoc, List.cons_append,
        List.nil_append, List.singleton_append]
      repeat first
        | apply beforeIn_here (by simp)
        | apply beforeIn_cons
        | apply beforeIn_append_left

/-- Witness for C1 at the concrete happy-path environment. -/
theorem cleanup_on_every_exit_witness :
    (sampleEnv.connect = .ok () →
      (runBrowserMode sampleEnv sampleOptions).2.closeCount = 1 ∧
      (runBrowserMode sampleEnv sampleOptions).2.sessionOpen = false) ∧
    (sampleEnv.hooksOk = true →
      (runBrowserMode sampleEnv sampleOptions).2.deregisterCount = 1) ∧
    (sampleOptions.config.keepBrowser = false →
      (runBrowserMode sampleEnv sampleOptions).2.killCount = 1 ∧
      (runBrowserMode sampleEnv sampleOptions).2.deleteCount = 1 ∧
      (runBrowserMode sampleEnv sampleOptions).2.profileExists = false) :=
  cleanup_on_every_exit sampleEnv sampleOptions "Say OK." rfl (by decide) ⟨1234, 9222⟩ rfl

/-- Witness for C4: no selection event without a desired model; selection
precedes submission with one. -/
theorem model_selection_iff_configured_witness :
    Event.modelSelectionStarted ∉ eventsOf (runBrowserMode sampleEnv
      (BrowserRunOptions.mk (some "Say OK.") { sampleConfig with desiredModel := none })).2 ∧
    beforeIn (eventsOf (runBrowserMode sampleEnv sampleOptions).2)
      .modelSelectionStarted .promptSubmitted :=
  ⟨(model_selection_iff_configured sampleEnv
      (BrowserRunOptions.mk (some "Say OK.") { sampleConfig with desiredModel := none })).1 rfl,
    (model_selection_iff_configured sampleEnv sampleOptions).2 "Say OK." rfl (by decide)
      ⟨1234, 9222⟩ rfl rfl rfl rfl rfl (by decide) rfl rfl rfl⟩

/-- C3: in every run that reaches the try body, the three domain-enable
calls are issued together and joined (the single `domainsEnabled` join
event) before navigation begins, and when cookie sync is enabled the cookies
are injected before any navigation. -/
theorem domains_and_cookies_before_navigation (env : Env) (options : BrowserRunOptions)
    (p : String) (hp : options.prompt = some p) (hpt : jsTrim p ≠ "")
    (ch : Chrome) (hl : env.launch = .ok ch) (hc : env.connect = .ok ()) :
    beforeIn (eventsOf (runBrowserMode env options).2)
      .domainsEnabled .navigationStarted ∧
    (options.config.cookieSync = true →
      beforeIn (eventsOf (runBrowserMode env options).2)
        (.cookiesSynced env.cookieCount) .navigationStarted) := by
  obtain ⟨v, Δrest, Δlog, hsel, hms, hrun⟩ :=
    phaseNavigate_split ⟨env.drive, options.config, ch, env.userDataDir, clockAt env.drive 0⟩
  have hbool : ∀ b : Bool, b = true ∨ b = false := fun b => by
    cases b
    · exact Or.inr rfl
    · exact Or.inl rfl
  constructor
  · rcases hbool env.hooksOk with hhk | hhk <;>
      rcases hbool (!options.config.headless && options.config.hideWindow) with hhd | hhd <;>
        rcases hbool options.config.cookieSync with hcs | hcs <;>
          rcases v with ve | vr <;>
          · simp only [runBrowserMode, hp, Option.map_some', if_neg hpt, hl,
              resolveBrowserConfig, launched, tryBody, hc, hhk, hhd, hcs, if_true, if_false,
              Bool.false_eq_true, hrun, finallyCleanup_spec, preLaunch_spec, emit, logLine,
              eventsOf, List.map_append, List.map_cons, List.map_nil, eventsOf_map_tag,
              List.append_assoc, List.cons_append, List.nil_append, List.singleton_append]
            repeat first
              | apply beforeIn_here (by simp)
              | apply beforeIn_cons
              | apply beforeIn_append_left
  · intro hcs
    rcases hbool env.hooksOk with hhk | hhk <;>
      rcases hbool (!options.config.headless && options.config.hideWindow) with hhd | hhd <;>
        rcases v with ve | vr <;>
        · simp only [runBrowserMode, hp, Option.map_some', if_neg hpt, hl,
            resolveBrowserConfig, launched, tryBody, hc, hhk, hhd, hcs, if_true, if_false,
            Bool.false_eq_true, hrun, finallyCleanup_spec, preLaunch_spec, emit, logLine,
            eventsOf, List.map_append, List.map_cons, List.map_nil, eventsOf_map_tag,
            List.append_assoc, List.cons_append, List.nil_append, List.singleton_append]
          repeat first
            | apply beforeIn_here (by simp)
            | apply beforeIn_cons
            | apply beforeIn_append_left

/-- Witness for C3 at the concrete happy-path environment. -/
theorem domains_and_cookies_before_navigation_witness :
    beforeIn (eventsOf (runBrowserMode sampleEnv sampleOptions).2)
      .domainsEnabled .navigationStarted ∧
    (sampleOptions.config.cookieSync = true →
      beforeIn (eventsOf (runBrowserMode sampleEnv sampleOptions).2)
        (.cookiesSynced sampleEnv.cookieCount) .navigationStarted) :=
  domains_and_cookies_before_navigation sampleEnv sampleOptions "Say OK." rfl (by decide)
    ⟨1234, 9222⟩ rfl rfl

/-- C7: a cookie sync that injects zero cookies is never an error: the
warning line is emitted to the caller-supplied log sink and the call's
outcome is otherwise unaffected by the cookie count. -/
theorem zero_cookies_nonfatal (env : Env) (options : BrowserRunOptions)
    (p : String) (hp : options.prompt = some p) (hpt : jsTrim p ≠ "")
    (ch : Chrome) (hl : env.launch = .ok ch) (hc : env.connect = .ok ())
    (hsync : options.config.cookieSync = true) (hzero : env.cookieCount = 0) :
    "No Chrome cookies found; continuing without session reuse" ∈
      (runBrowserMode env options).2.logs ∧
    ∀ n, (runBrowserMode { env with cookieCount := n } options).1 =
      (runBrowserMode env options).1 := by
  obtain ⟨v, Δev, Δlog, hsel, hms, hshape, hlogs, hrun⟩ :=
    tryBody_split env.connect ⟨env.drive, options.config, ch, env.userDataDir,
      clockAt env.drive 0⟩
  constructor
  · obtain ⟨restLog, hΔ⟩ := hlogs env.cookieCount (by simp [hc, Except.isOk, Except.toBool])
    rw [hzero] at hΔ
    simp [hsync] at hΔ
    rcases v with ve | vr <;>
      simp [runBrowserMode, hp, if_neg hpt, hl, resolveBrowserConfig, launched, hrun,
        finallyCleanup_spec, preLaunch_spec, emit, logLine, hΔ, hsync, hzero]
  · intro n
    rcases v with ve | vr <;>
      simp [runBrowserMode, hp, if_neg hpt, hl, resolveBrowserConfig, launched, hrun,
        finallyCleanup_spec, preLaunch_spec, emit, logLine]

/-- Witness for C7 at the concrete environment with zero local cookies. -/
theorem zero_cookies_nonfatal_witness :
    "No Chrome cookies found; continuing without session reuse" ∈
      (runBrowserMode { sampleEnv with cookieCount := 0 } sampleOptions).2.logs ∧
    ∀ n, (runBrowserMode
        { { sampleEnv with cookieCount := 0 } with cookieCount := n } sampleOptions).1 =
      (runBrowserMode { sampleEnv with cookieCount := 0 } sampleOptions).1 :=
  zero_cookies_nonfatal { sampleEnv with cookieCount := 0 } sampleOptions "Say OK."
    rfl (by decide) ⟨1234, 9222⟩ rfl rfl rfl rfl

/-- C6 counterexample: a call whose browser launch fails (here with
`LaunchTimeout`) throws with `keepBrowser` unset, yet the temporary profile
directory is not deleted and the browser process is not killed — `index.ts`
calls `launchChrome` before the try/finally, so the claim's "absent after the
call returns or throws" does not hold for every call. -/
theorem profile_lifecycle_counterexample :
    sampleOptions.config.keepBrowser = false ∧
    (runBrowserMode { sampleEnv with launch := .error .launchTimeout } sampleOptions).1 =
      .error (.driver .launchTimeout) ∧
    (runBrowserMode { sampleEnv with launch := .error .launchTimeout }
        sampleOptions).2.profileExists = true ∧
    (runBrowserMode { sampleEnv with launch := .error .launchTimeout }
        sampleOptions).2.killCount = 0 :=
  ⟨rfl, rfl, rfl, rfl⟩

set_option maxHeartbeats 1000000 in
/-- C6 (amended to calls that get past the browser launch): with
`keepBrowser` unset the profile directory exists during the call and is
absent afterwards and the process is killed; with `keepBrowser` set neither
kill nor deletion happens; on success `tookMs` is non-negative. -/
theorem profile_lifecycle_amended (env : Env) (options : BrowserRunOptions)
    (p : String) (hp : options.prompt = some p) (hpt : jsTrim p ≠ "")
    (ch : Chrome) (hl : env.launch = .ok ch) :
    (options.config.keepBrowser = false →
      (runBrowserMode env options).2.profileExists = false ∧
      (runBrowserMode env options).2.killCount = 1 ∧
      (runBrowserMode env options).2.deleteCount = 1) ∧
    (options.config.keepBrowser = true →
      (runBrowserMode env options).2.killCount = 0 ∧
      (runBrowserMode env options).2.deleteCount = 0 ∧
      (runBrowserMode env options).2.profileExists = true) ∧
    (∀ e b, (e, b) ∈ (runBrowserMode env options).2.trace →
      e ≠ .profileDeleted → b = true) ∧
    (∀ r, (runBrowserMode env options).1 = .ok r → 0 ≤ r.tookMs) := by
  obtain ⟨v, Δev, Δlog, hsel, hms, hshape, hlogs, hrun⟩ :=
    tryBody_split env.connect ⟨env.drive, options.config, ch, env.userDataDir,
      clockAt env.drive 0⟩
  have hbool : ∀ b : Bool, b = true ∨ b = false := fun b => by
    cases b
    · exact Or.inr rfl
    · exact Or.inl rfl
  refine ⟨fun hk => ?_, fun hk => ?_, fun e b hmem hne => ?_, fun r hr => ?_⟩
  · rcases hbool env.hooksOk with hhk | hhk <;>
      rcases v with ve | vr <;>
        simp_all [runBrowserMode, hp, if_neg hpt, hl, resolveBrowserConfig, launched,
          preLaunch_spec, hrun, finallyCleanup_spec, emit, logLine]
  · rcases hbool env.hooksOk with hhk | hhk <;>
      rcases v with ve | vr <;>
        simp_all [runBrowserMode, hp, if_neg hpt, hl, resolveBrowserConfig, launched,
          preLaunch_spec, hrun, finallyCleanup_spec, emit, logLine]
  · clear hsel hms hshape hlogs
    rcases hbool env.hooksOk with hhk | hhk <;>
      rcases hbool options.config.keepBrowser with hkb | hkb <;>
        rcases henvc : env.connect with ce | co <;>
          rcases v with ve | vr <;>
          · simp_all only [runBrowserMode, hp, Option.map_some', if_neg hpt, hl,
              resolveBrowserConfig, launched, preLaunch_spec, hrun, finallyCleanup_spec,
              emit, logLine, Except.isOk, Except.toBool, Bool.false_eq_true, if_true,
              if_false, Bool.or_true, Bool.or_false, List.mem_append, List.mem_map,
              List.mem_cons, List.mem_singleton, Prod.mk.injEq]
            tauto
  · rcases v with ve | vr
    · exfalso
      simp_all [runBrowserMode, hp, if_neg hpt, hl, resolveBrowserConfig, launched, hrun,
        Except.mapError]
    · have hv : r = vr := by
        simp_all [runBrowserMode, hp, if_neg hpt, hl, resolveBrowserConfig, launched, hrun,
          Except.mapError]
      have hms' : vr.tookMs = clockAt env.drive 1 - clockAt env.drive 0 := hms vr rfl
      rw [hv, hms']
      simp [clockAt]

/-- Witness for C6 (amended) at the concrete happy-path environment. -/
theorem profile_lifecycle_amended_witness :
    (sampleOptions.config.keepBrowser = false →
      (runBrowserMode sampleEnv sampleOptions).2.profileExists = false ∧
      (runBrowserMode sampleEnv sampleOptions).2.killCount = 1 ∧
      (runBrowserMode sampleEnv sampleOptions).2.deleteCount = 1) ∧
    (sampleOptions.config.keepBrowser = true →
      (runBrowserMode sampleEnv sampleOptions).2.killCount = 0 ∧
      (runBrowserMode sampleEnv sampleOptions).2.deleteCount = 0 ∧
      (runBrowserMode sampleEnv sampleOptions).2.profileExists = true) ∧
    (∀ e b, (e, b) ∈ (runBrowserMode sampleEnv sampleOptions).2.trace →
      e ≠ .profileDeleted → b = true) ∧
    (∀ r, (runBrowserMode sampleEnv sampleOptions).1 = .ok r → 0 ≤ r.tookMs) :=
  profile_lifecycle_amended sampleEnv sampleOptions "Say OK." rfl (by decide)
    ⟨1234, 9222⟩ rfl

/-- C8 counterexample: with a concrete environment in which termination-hook
registration fails, the call proceeds to success, yet the log sink receives
exactly the same lines as when registration succeeds — no line reports the
registration failure, because the catch block of `index.ts` lines 47-49 is
empty. -/
theorem hook_failure_counterexample :
    ((runBrowserMode { sampleEnv with hooksOk := false } sampleOptions).1).isOk = true ∧
    (runBrowserMode { sampleEnv with hooksOk := false } sampleOptions).2.logs =
      (runBrowserMode { sampleEnv with hooksOk := true } sampleOptions).2.logs ∧
    (runBrowserMode { sampleEnv with hooksOk := false } sampleOptions).2.logs =
      ["Created temporary Chrome profile at /tmp/oracle-browser-sample",
        "Copied 3 cookies from Chrome profile Default",
        "Cleanup complete after 2ms total"] :=
  ⟨rfl, rfl, rfl⟩

/-- C8 (amended): a failure while registering the termination hooks is
non-fatal and silently ignored: the call's result and its entire log output
are identical to those of the same call with successful registration — in
particular no log line reports the failure. -/
theorem hook_failure_amended (env : Env) (options : BrowserRunOptions) :
    (runBrowserMode { env with hooksOk := false } options).1 =
      (runBrowserMode { env with hooksOk := true } options).1 ∧
    (runBrowserMode { env with hooksOk := false } options).2.logs =
      (runBrowserMode { env with hooksOk := true } options).2.logs := by
  cases hp : options.prompt with
  | none => simp [runBrowserMode, hp]
  | some p =>
    by_cases hpt : jsTrim p = ""
    · simp [runBrowserMode, hp, hpt]
    · cases hl : env.launch with
      | error e =>
        constructor <;>
          simp [runBrowserMode, hp, if_neg hpt, hl, preLaunch_spec]
      | ok ch =>
        obtain ⟨v, Δev, Δlog, hsel, hms, hshape, hlogs, hrun⟩ :=
          tryBody_split env.connect ⟨env.drive, options.config, ch, env.userDataDir,
            clockAt env.drive 0⟩
        constructor <;>
          rcases v with ve | vr <;>
            simp [runBrowserMode, hp, if_neg hpt, hl, resolveBrowserConfig, launched,
              hrun, finallyCleanup_spec, preLaunch_spec, emit, logLine]

end Oracle
